import Mathlib

/-!
Verification of the period-bounded delta aggregation engine of the
VideoAnalyticsBot repository (`src/managers/date_ai_manager.py`).

The Python module is shallowly embedded: naive `datetime` values become a
`DateTime` structure whose chronological order is given by an injective
monotone map `DateTime.toInstant` into seconds (`Int`); the SQL query of
`_fetch_videos_in_period` is embedded as a pure function over an explicit
in-memory `Store`; the TTL cache becomes an association list threaded through
the public operations; storage failures are modelled by an `available` flag on
the store and an `Except Unit` result (an unavailable store corresponds to a
raised `asyncpg` error, i.e. `StorageUnavailable`).
-/

set_option autoImplicit false

namespace VideoAnalytics

/-- Days since 1970-01-01 of a proleptic Gregorian civil date
(standard `days_from_civil` algorithm, as used by `datetime.date.toordinal`
up to a constant offset).  `Int.fdiv` is floor division, matching the
algorithm's requirements for negative years as well. -/
def daysFromCivil (y m d : Int) : Int :=
  let y2 := if m ≤ 2 then y - 1 else y
  let era := Int.fdiv y2 400
  let yoe := y2 - era * 400
  let doy := (153 * (if 2 < m then m - 3 else m + 9) + 2) / 5 + d - 1
  let doe := yoe * 365 + yoe / 4 - yoe / 100 + doy
  era * 146097 + doe - 719468

/-- A naive Python `datetime` value. -/
structure DateTime where
  year : Int
  month : Int
  day : Int
  hour : Int
  minute : Int
  second : Int
  deriving DecidableEq, Repr

/-- Seconds since the epoch; Python's `datetime` comparison operators agree
with comparison of these instants. -/
def DateTime.toInstant (d : DateTime) : Int :=
  daysFromCivil d.year d.month d.day * 86400
    + d.hour * 3600 + d.minute * 60 + d.second

/-- Python `datetime(y, m, d)` — midnight constructor. -/
def mkDate (y m d : Int) : DateTime := ⟨y, m, d, 0, 0, 0⟩

/-- The instant of midnight of the day of `d`
(`d.replace(hour=0, minute=0, second=0, microsecond=0)`). -/
def DateTime.midnight (d : DateTime) : Int :=
  daysFromCivil d.year d.month d.day * 86400

/-- Python `date.weekday()`: Monday = 0.  1970-01-01 was a Thursday. -/
def DateTime.weekday (d : DateTime) : Int :=
  (daysFromCivil d.year d.month d.day + 3).emod 7

/-- The number of seconds in a day (`timedelta(days=1)`). -/
def oneDay : Int := 86400

/-- The `DataPeriod` dataclass: the fixed yearly configuration, four instants and
the target year. -/
structure DataPeriod where
  video_creation_start : Int
  video_creation_end : Int
  stats_start : Int
  stats_end : Int
  target_year : Int
  deriving DecidableEq, Repr

/-- The `DataPeriod` built by `DateAIManager.initialize` for a target year:
creation window `Aug 1 .. Oct 31 23:59:59`, counter (stats) window
`Nov 1 .. Dec 31 23:59:59`. -/
def mkDataPeriod (y : Int) : DataPeriod :=
  { video_creation_start := (mkDate y 8 1).toInstant
    video_creation_end := (DateTime.mk y 10 31 23 59 59).toInstant
    stats_start := (mkDate y 11 1).toInstant
    stats_end := (DateTime.mk y 12 31 23 59 59).toInstant
    target_year := y }

inductive PeriodType where
  | DAY | WEEK | MONTH | CUSTOM | ALL_TIME
  deriving DecidableEq, Repr

/-- The `PeriodType.value` strings of the Python enum. -/
def PeriodType.value : PeriodType → String
  | .DAY => "day"
  | .WEEK => "week"
  | .MONTH => "month"
  | .CUSTOM => "custom"
  | .ALL_TIME => "all_time"

inductive DataType where
  | VIDEO_CREATION | STATS_ONLY | MIXED | NONE
  deriving DecidableEq, Repr

/-- The `DataType.value` strings of the Python enum. -/
def DataType.value : DataType → String
  | .VIDEO_CREATION => "video_creation"
  | .STATS_ONLY => "stats_only"
  | .MIXED => "mixed"
  | .NONE => "none"

/-- A row of the `videos` table. -/
structure Video where
  id : Int
  creator_human_number : Int
  video_created_at : Int
  deriving DecidableEq, Repr

/-- A row of the `video_snapshots` table. -/
structure Snapshot where
  video_id : Int
  created_at : Int
  views_count : Int
  likes_count : Int
  deriving DecidableEq, Repr

/-- The storage backend: two tables plus an availability flag modelling
whether queries succeed or raise (`StorageUnavailable`). -/
structure Store where
  videos : List Video
  snapshots : List Snapshot
  available : Bool
  deriving DecidableEq, Repr

/-! ### Period bound helpers (`_calculate_day/week/month_bounds`,
module-level `_calculate_period_bounds`) -/

/-- Embeds `_calculate_day_bounds`: `[d@00:00, d@00:00 + 1 day)`. -/
def calcDayBounds (d : DateTime) : Int × Int :=
  (d.midnight, d.midnight + oneDay)

/-- Embeds `_calculate_week_bounds`: Monday of `d`'s week at midnight, plus 7 days. -/
def calcWeekBounds (d : DateTime) : Int × Int :=
  let days := daysFromCivil d.year d.month d.day
  let monday := (days - d.weekday) * 86400
  (monday, monday + 7 * oneDay)

/-- Embeds `_calculate_month_bounds(year, month)`: first of month to first of next
month. -/
def calcMonthBounds (y m : Int) : Int × Int :=
  let s := (mkDate y m 1).toInstant
  let e := if m = 12 then (mkDate (y + 1) 1 1).toInstant
           else (mkDate y (m + 1) 1).toInstant
  (s, e)

/-- The `MONTH` branch of the module-level `_calculate_period_bounds`:
the end bound is built with `start_date.replace(...)`, which keeps
`start_date`'s time-of-day fields. -/
def calcMonthBoundsOf (d : DateTime) : Int × Int :=
  let s := (mkDate d.year d.month 1).toInstant
  let e := if d.month = 12 then
             (DateTime.mk (d.year + 1) 1 1 d.hour d.minute d.second).toInstant
           else
             (DateTime.mk d.year (d.month + 1) 1 d.hour d.minute d.second).toInstant
  (s, e)

/-- The `CUSTOM` bounds: `[s@00:00, e@00:00 + 1 day)`. -/
def customBounds (s e : DateTime) : Int × Int :=
  (s.midnight, e.midnight + oneDay)

/-- Module-level `_calculate_period_bounds`.  `.error` is the `ValueError`
raised for a reversed custom range; `.ok none` is Python's `return None`
(missing/unsupported arguments). -/
def calcPeriodBounds (osd : Option DateTime) (pt : PeriodType)
    (oed : Option DateTime) : Except String (Option (Int × Int)) :=
  match pt, osd with
  | PeriodType.DAY, some d => .ok (some (calcDayBounds d))
  | PeriodType.WEEK, some d => .ok (some (calcWeekBounds d))
  | PeriodType.MONTH, some d => .ok (some (calcMonthBoundsOf d))
  | PeriodType.CUSTOM, some s =>
    match oed with
    | some e =>
      if e.toInstant < s.toInstant then
        .error "Дата окончания периода должна быть позже даты начала"
      else
        .ok (some (customBounds s e))
    | none => .ok none
  | _, _ => .ok none

/-! ### The delta SQL of `_fetch_videos_in_period` /
`_fetch_creator_videos_in_period` -/

/-- SQL `MAX(xs)`: `NULL` (`none`) on an empty aggregate. -/
def sqlMax (l : List Int) : Option Int :=
  l.foldl (fun acc x =>
    match acc with
    | none => some x
    | some a => some (max a x)) none

/-- SQL `COALESCE(o, d)`. -/
def coalesce (o : Option Int) (d : Int) : Int := o.getD d

/-- SQL `COALESCE(MAX(views_count) FILTER (WHERE created_at < t), 0)` over a
group of snapshots. -/
def viewsBefore (snaps : List Snapshot) (t : Int) : Int :=
  coalesce (sqlMax ((snaps.filter (fun s => decide (s.created_at < t))).map
    (·.views_count))) 0

/-- SQL `COALESCE(MAX(likes_count) FILTER (WHERE created_at < t), 0)`. -/
def likesBefore (snaps : List Snapshot) (t : Int) : Int :=
  coalesce (sqlMax ((snaps.filter (fun s => decide (s.created_at < t))).map
    (·.likes_count))) 0

/-- The `views_gained` of the `stats_delta` CTE:
`GREATEST(before_end - before_start, 0)`. -/
def viewsGainedOf (snaps : List Snapshot) (s e : Int) : Int :=
  max (viewsBefore snaps e - viewsBefore snaps s) 0

/-- The `likes_gained` of the `stats_delta` CTE. -/
def likesGainedOf (snaps : List Snapshot) (s e : Int) : Int :=
  max (likesBefore snaps e - likesBefore snaps s) 0

/-- The group of counter-window snapshots of one video
(`WHERE s.created_at >= stats_start AND s.created_at <= stats_end
GROUP BY s.video_id`). -/
def windowSnaps (cfg : DataPeriod) (store : Store) (vid : Int) :
    List Snapshot :=
  store.snapshots.filter (fun s =>
    decide (s.video_id = vid) && decide (cfg.stats_start ≤ s.created_at)
      && decide (s.created_at ≤ cfg.stats_end))

/-- The `stats_delta` CTE restricted to one video id: `some (vg, lg)` when the
video has a snapshot group in the counter window passing the `HAVING`
clause (`views_gained > 0 OR likes_gained > 0`), otherwise no row. -/
def statsDelta (cfg : DataPeriod) (store : Store) (vid : Int) (s e : Int) :
    Option (Int × Int) :=
  if (windowSnaps cfg store vid).isEmpty then none
  else if 0 < viewsGainedOf (windowSnaps cfg store vid) s e
       ∨ 0 < likesGainedOf (windowSnaps cfg store vid) s e then
    some (viewsGainedOf (windowSnaps cfg store vid) s e,
          likesGainedOf (windowSnaps cfg store vid) s e)
  else none

/-- One per-entity tuple of the aggregation query. -/
structure Row where
  human_id : Int
  is_new : Int
  views_gained : Int
  likes_gained : Int
  deriving DecidableEq, Repr

/-- The `video_creation` CTE's `WHERE` clause: creation inside the creation
window and owner handle between 1 and 19. -/
def inCreationWindow (cfg : DataPeriod) (v : Video) : Bool :=
  decide (cfg.video_creation_start ≤ v.video_created_at)
    && decide (v.video_created_at ≤ cfg.video_creation_end)
    && decide (1 ≤ v.creator_human_number)
    && decide (v.creator_human_number ≤ 19)

/-- The `is_new` CASE expression: `1` if created inside `[start, end)`. -/
def isNewFlag (v : Video) (s e : Int) : Int :=
  if s ≤ v.video_created_at ∧ v.video_created_at < e then 1 else 0

/-- The final `SELECT ... LEFT JOIN ... WHERE vc.is_new = 1 OR sd.video_id IS
NOT NULL` for one candidate video: `none` when the row is filtered out. -/
def rowOfVideo (cfg : DataPeriod) (store : Store) (s e : Int) (v : Video) :
    Option Row :=
  match statsDelta cfg store v.id s e with
  | some (vg, lg) => some ⟨v.creator_human_number, isNewFlag v s e, vg, lg⟩
  | none =>
    if isNewFlag v s e = 1 then
      some ⟨v.creator_human_number, isNewFlag v s e, 0, 0⟩
    else none

/-- Embeds `_fetch_videos_in_period` (the pure result set of the SQL query). -/
def fetchVideosInPeriod (cfg : DataPeriod) (store : Store) (s e : Int) :
    List Row :=
  (store.videos.filter (inCreationWindow cfg)).filterMap
    (rowOfVideo cfg store s e)

/-- Embeds `_fetch_videos_in_period` including the storage failure mode: an
unavailable pool raises, surfacing as `StorageUnavailable`. -/
def fetchVideosE (cfg : DataPeriod) (store : Store) (s e : Int) :
    Except Unit (List Row) :=
  if store.available then .ok (fetchVideosInPeriod cfg store s e)
  else .error ()

/-! #### Creator-scoped variant (`_fetch_creator_videos_in_period`) -/

/-- A per-video tuple of the creator query (no `human_id` column). -/
structure CreatorRow where
  is_new : Int
  views_gained : Int
  likes_gained : Int
  deriving DecidableEq, Repr

/-- Snapshot group of the creator query's `stats_delta`: the join
`JOIN videos v ON s.video_id = v.id WHERE v.creator_human_number = cid`
restricts snapshots to the creator's videos. -/
def windowSnapsCreator (cfg : DataPeriod) (store : Store) (cid vid : Int) :
    List Snapshot :=
  store.snapshots.filter (fun s =>
    decide (s.video_id = vid)
      && store.videos.any (fun v =>
           decide (v.id = s.video_id) && decide (v.creator_human_number = cid))
      && decide (cfg.stats_start ≤ s.created_at)
      && decide (s.created_at ≤ cfg.stats_end))

/-- The `stats_delta` of the creator query, per candidate video. -/
def statsDeltaCreator (cfg : DataPeriod) (store : Store) (cid vid : Int)
    (s e : Int) : Option (Int × Int) :=
  if (windowSnapsCreator cfg store cid vid).isEmpty then none
  else if 0 < viewsGainedOf (windowSnapsCreator cfg store cid vid) s e
       ∨ 0 < likesGainedOf (windowSnapsCreator cfg store cid vid) s e then
    some (viewsGainedOf (windowSnapsCreator cfg store cid vid) s e,
          likesGainedOf (windowSnapsCreator cfg store cid vid) s e)
  else none

/-- Creator query's `video_creation` CTE filter: owner equality plus the
creation window (no 1..19 `BETWEEN`). -/
def inCreationWindowCreator (cfg : DataPeriod) (cid : Int) (v : Video) :
    Bool :=
  decide (v.creator_human_number = cid)
    && decide (cfg.video_creation_start ≤ v.video_created_at)
    && decide (v.video_created_at ≤ cfg.video_creation_end)

/-- Final row of the creator query for one candidate video. -/
def creatorRowOfVideo (cfg : DataPeriod) (store : Store) (cid : Int)
    (s e : Int) (v : Video) : Option CreatorRow :=
  match statsDeltaCreator cfg store cid v.id s e with
  | some (vg, lg) => some ⟨isNewFlag v s e, vg, lg⟩
  | none =>
    if isNewFlag v s e = 1 then some ⟨isNewFlag v s e, 0, 0⟩ else none

/-- Embeds `_fetch_creator_videos_in_period` (pure result set). -/
def fetchCreatorVideosInPeriod (cfg : DataPeriod) (store : Store) (cid : Int)
    (s e : Int) : List CreatorRow :=
  (store.videos.filter (inCreationWindowCreator cfg cid)).filterMap
    (creatorRowOfVideo cfg store cid s e)

/-- Creator fetch including the storage failure mode. -/
def fetchCreatorVideosE (cfg : DataPeriod) (store : Store) (cid : Int)
    (s e : Int) : Except Unit (List CreatorRow) :=
  if store.available then .ok (fetchCreatorVideosInPeriod cfg store cid s e)
  else .error ()

/-! ### Result dictionaries -/

/-- One entry of the `creator_stats` dict / `top_creators` leaderboard. -/
structure CreatorStat where
  human_id : Int
  new_videos : Int
  views_gained : Int
  likes_gained : Int
  deriving DecidableEq, Repr

/-- The `filters_applied` sub-dict. -/
structure FiltersApplied where
  video_creation_months : String
  stats_months : String
  year : Int
  deriving DecidableEq, Repr

/-- A result dictionary.  The Python results are heterogeneous dicts; each
optional field is `none` exactly when the corresponding key is absent from
the dict built at the given source location. -/
structure StatsResult where
  period_type : Option String
  data_type : Option DataType
  start_date : Option Int
  end_date : Option Int
  has_data : Bool
  message : Option String
  total_videos_analyzed : Option Nat
  new_videos : Option Int
  active_creators : Option Nat
  views_gained : Option Int
  likes_gained : Option Int
  engagement_rate : Option ℚ
  top_creators : Option (List CreatorStat)
  filters_applied : Option FiltersApplied
  target_year : Option Int
  human_id : Option Int
  total_videos : Option Nat
  deriving DecidableEq, Repr

/-- An all-`none` template for building result dicts. -/
def emptyResult : StatsResult :=
  { period_type := none, data_type := none, start_date := none,
    end_date := none, has_data := false, message := none,
    total_videos_analyzed := none, new_videos := none,
    active_creators := none, views_gained := none, likes_gained := none,
    engagement_rate := none, top_creators := none, filters_applied := none,
    target_year := none, human_id := none, total_videos := none }

/-- A dict that is either a normal result or an `{"error": ...}` dict. -/
inductive StatsReply where
  | ok : StatsResult → StatsReply
  | err : String → StatsReply
  deriving DecidableEq, Repr

/-- Python `round(q, 2)` on the exact rational value. -/
def round2 (q : ℚ) : ℚ := ((round (q * 100) : ℤ) : ℚ) / 100

/-- The `filters_applied` dict of the period aggregation results. -/
def periodFilters (cfg : DataPeriod) : FiltersApplied :=
  ⟨"август-октябрь", "ноябрь-декабрь", cfg.target_year⟩

/-! ### Rollup (`_aggregate_video_stats`, `_aggregate_creator_stats`) -/

/-- Add one row into a creator's accumulator (the per-key updates of the
loop body in `_aggregate_video_stats`; `is_new` is tested for truthiness). -/
def addRowToCreator (r : Row) (c : CreatorStat) : CreatorStat :=
  { c with
    new_videos := c.new_videos + (if r.is_new = 0 then 0 else 1)
    views_gained := c.views_gained + r.views_gained
    likes_gained := c.likes_gained + r.likes_gained }

/-- The `creator_stats` dict: keyed by `human_id`, insertion ordered. -/
def updateCreatorStats (acc : List CreatorStat) (r : Row) :
    List CreatorStat :=
  if acc.any (fun c => decide (c.human_id = r.human_id)) then
    acc.map (fun c =>
      if c.human_id = r.human_id then addRowToCreator r c else c)
  else acc ++ [addRowToCreator r ⟨r.human_id, 0, 0, 0⟩]

/-- Stable insertion for the descending `views_gained` sort
(`sorted(..., key=views_gained, reverse=True)` is stable). -/
def insertByViews (c : CreatorStat) : List CreatorStat → List CreatorStat
  | [] => [c]
  | b :: rest =>
    if b.views_gained < c.views_gained then c :: b :: rest
    else b :: insertByViews c rest

/-- Stable descending sort by `views_gained`. -/
def sortByViewsDesc (l : List CreatorStat) : List CreatorStat :=
  l.foldr insertByViews []

/-- Total views gained across a fetched row set. -/
def totalViews (rows : List Row) : Int := (rows.map (·.views_gained)).sum

/-- Total likes gained across a fetched row set. -/
def totalLikes (rows : List Row) : Int := (rows.map (·.likes_gained)).sum

/-- Total views gained across a creator row set. -/
def creatorTotalViews (rows : List CreatorRow) : Int :=
  (rows.map (·.views_gained)).sum

/-- Total likes gained across a creator row set. -/
def creatorTotalLikes (rows : List CreatorRow) : Int :=
  (rows.map (·.likes_gained)).sum

/-- Embeds `_aggregate_video_stats`. -/
def aggregateVideoStats (cfg : DataPeriod) (videos : List Row) (s e : Int)
    (pt : PeriodType) (dt : DataType) : StatsResult :=
  let creator_stats := videos.foldl updateCreatorStats []
  let total_new := (videos.filter (fun v => ¬ (v.is_new = 0))).length
  let total_views : Int := (videos.map (·.views_gained)).sum
  let total_likes : Int := (videos.map (·.likes_gained)).sum
  let engagement : ℚ :=
    if 0 < total_views then ((total_likes : ℚ) / (total_views : ℚ)) * 100
    else 0
  { emptyResult with
    period_type := some pt.value
    data_type := some dt
    start_date := some s
    end_date := some e
    has_data := true
    total_videos_analyzed := some videos.length
    new_videos := some total_new
    active_creators := some creator_stats.length
    views_gained := some total_views
    likes_gained := some total_likes
    engagement_rate := some (round2 engagement)
    top_creators := some ((sortByViewsDesc creator_stats).take 5)
    filters_applied := some (periodFilters cfg) }

/-- Embeds `_aggregate_creator_stats` (here `total_new` is `sum(is_new)`, and the
rounding sits inside the positive branch). -/
def aggregateCreatorStats (cfg : DataPeriod) (cid : Int)
    (videos : List CreatorRow) (s e : Int) (pt : PeriodType) : StatsResult :=
  let total_new : Int := (videos.map (·.is_new)).sum
  let total_views : Int := (videos.map (·.views_gained)).sum
  let total_likes : Int := (videos.map (·.likes_gained)).sum
  let engagement : ℚ :=
    if 0 < total_views then round2 (((total_likes : ℚ) / (total_views : ℚ)) * 100)
    else 0
  { emptyResult with
    human_id := some cid
    period_type := some pt.value
    start_date := some s
    end_date := some e
    has_data := true
    total_videos := some videos.length
    new_videos := some total_new
    views_gained := some total_views
    likes_gained := some total_likes
    engagement_rate := some engagement
    filters_applied := some ⟨"август-октябрь", "ноябрь-декабрь", cfg.target_year⟩ }

/-- Embeds `_create_no_data_response`. -/
def createNoDataResponse (cfg : DataPeriod) (s e : Int) (pt : PeriodType)
    (dt : DataType) : StatsResult :=
  { emptyResult with
    period_type := some pt.value
    data_type := some dt
    start_date := some s
    end_date := some e
    has_data := false
    message := some "Нет данных за указанный период"
    filters_applied := some (periodFilters cfg) }

/-- Embeds `_create_out_of_range_response` — note: no `data_type` key. -/
def createOutOfRangeResponse (cfg : DataPeriod) (s e : Int) : StatsResult :=
  { emptyResult with
    period_type := some "out_of_range"
    start_date := some s
    end_date := some e
    has_data := false
    message := some ("Период вне диапазона (" ++ toString cfg.target_year
      ++ " год)")
    target_year := some cfg.target_year }

/-- The no-data dict of `get_creator_stats` (only three keys). -/
def creatorNoDataResponse (cid : Int) : StatsResult :=
  { emptyResult with
    human_id := some cid
    has_data := false
    message := some "Нет данных за указанный период" }

/-! ### Result cache (`_get_cached`, `_set_cached`) -/

/-- The string cache key `f"<type>_<start ts>_<end ts>"` is injective in its
three components; it is modelled by the components themselves. -/
structure CacheKey where
  ptype : PeriodType
  start : Int
  stop : Int
  deriving DecidableEq, Repr

/-- One cache slot: insertion-ordered dict entry `key -> (value, ts)`. -/
structure CacheEntry (α : Type) where
  key : CacheKey
  value : α
  inserted_at : Int
  deriving DecidableEq, Repr

/-- Constant `DateAIManager.MAX_CACHE_SIZE`. -/
def MAX_CACHE_SIZE : Nat := 100

/-- Constant `DateAIManager.CACHE_TTL` (seconds). -/
def CACHE_TTL : Int := 300

/-- Embeds `_get_cached`: the returned value plus the cache state after the read
(an expired entry is deleted on read). -/
def getCached {α : Type} (ttl : Int) (cache : List (CacheEntry α))
    (key : CacheKey) (now : Int) : Option α × List (CacheEntry α) :=
  match cache.find? (fun e => decide (e.key = key)) with
  | some e =>
    if now - e.inserted_at < ttl then (some e.value, cache)
    else (none, cache.filter (fun x => ¬ (x.key = key)))
  | none => (none, cache)

/-- The purge step of `_set_cached`: drop every entry with
`now - inserted_at >= ttl`. -/
def purgeExpired {α : Type} (ttl : Int) (cache : List (CacheEntry α))
    (now : Int) : List (CacheEntry α) :=
  cache.filter (fun e => decide (now - e.inserted_at < ttl))

/-- Python `min(keys, key=lambda k: cache[k][1])`: the first entry with the
minimal insertion instant. -/
def oldestEntry {α : Type} (cache : List (CacheEntry α)) :
    Option (CacheEntry α) :=
  cache.foldl (fun acc e =>
    match acc with
    | none => some e
    | some b => if e.inserted_at < b.inserted_at then some e else some b) none

/-- The capacity step of `_set_cached`: if still at/over capacity, evict the
single entry with the oldest insertion instant. -/
def evictIfFull {α : Type} (maxSize : Nat) (cache : List (CacheEntry α)) :
    List (CacheEntry α) :=
  if maxSize ≤ cache.length then
    match oldestEntry cache with
    | some o => cache.filter (fun e => ¬ (e.key = o.key))
    | none => cache
  else cache

/-- Python dict assignment `cache[key] = (value, now)`: overwrite in place,
else append. -/
def dictInsert {α : Type} (cache : List (CacheEntry α)) (key : CacheKey)
    (value : α) (now : Int) : List (CacheEntry α) :=
  if cache.any (fun e => decide (e.key = key)) then
    cache.map (fun e => if e.key = key then ⟨key, value, now⟩ else e)
  else cache ++ [⟨key, value, now⟩]

/-- Embeds `_set_cached`: purge expired entries, then evict one oldest entry if
still at/over capacity, then insert. -/
def setCached {α : Type} (maxSize : Nat) (ttl : Int)
    (cache : List (CacheEntry α)) (key : CacheKey) (value : α) (now : Int) :
    List (CacheEntry α) :=
  dictInsert (evictIfFull maxSize (purgeExpired ttl cache now)) key value now

/-- The engine's result cache type. -/
abbrev Cache : Type := List (CacheEntry StatsResult)

/-! ### Facade (`_calculate_stats_for_period` and the public operations) -/

/-- Embeds `_get_period_type`: the availability classifier. -/
def getPeriodType (cfg : DataPeriod) (s e : Int) : DataType :=
  if e ≤ cfg.video_creation_start ∨ cfg.stats_end ≤ s then DataType.NONE
  else if cfg.video_creation_start ≤ s ∧ e ≤ cfg.video_creation_end then
    DataType.VIDEO_CREATION
  else if cfg.stats_start ≤ s ∧ e ≤ cfg.stats_end then DataType.STATS_ONLY
  else DataType.MIXED

/-- Embeds `_calculate_stats_for_period`, threading the cache state; a raised
storage error is `.error ()`. -/
def calcStatsForPeriod (cfg : DataPeriod) (store : Store) (cache : Cache)
    (now : Int) (s e : Int) (pt : PeriodType) :
    Except Unit (StatsResult × Cache) :=
  let key : CacheKey := ⟨pt, s, e⟩
  let rd := getCached CACHE_TTL cache key now
  match rd.1 with
  | some v => .ok (v, rd.2)
  | none =>
    let dt := getPeriodType cfg s e
    if dt = DataType.NONE then
      let r := createNoDataResponse cfg s e pt dt
      .ok (r, setCached MAX_CACHE_SIZE CACHE_TTL rd.2 key r now)
    else
      match fetchVideosE cfg store s e with
      | .error u => .error u
      | .ok videos =>
        if videos.isEmpty then
          let r := createNoDataResponse cfg s e pt dt
          .ok (r, setCached MAX_CACHE_SIZE CACHE_TTL rd.2 key r now)
        else
          let r := aggregateVideoStats cfg videos s e pt dt
          .ok (r, setCached MAX_CACHE_SIZE CACHE_TTL rd.2 key r now)

/-- Embeds `get_daily_stats`. -/
def getDailyStats (cfg : DataPeriod) (store : Store) (cache : Cache)
    (now : Int) (date : DateTime) : Except Unit (StatsResult × Cache) :=
  if date.year ≠ cfg.target_year then
    .ok (createOutOfRangeResponse cfg date.toInstant date.toInstant, cache)
  else
    let b := calcDayBounds date
    calcStatsForPeriod cfg store cache now b.1 b.2 PeriodType.DAY

/-- Embeds `get_weekly_stats`. -/
def getWeeklyStats (cfg : DataPeriod) (store : Store) (cache : Cache)
    (now : Int) (start_date : DateTime) : Except Unit (StatsResult × Cache) :=
  if start_date.year ≠ cfg.target_year then
    .ok (createOutOfRangeResponse cfg start_date.toInstant
      start_date.toInstant, cache)
  else
    let b := calcWeekBounds start_date
    calcStatsForPeriod cfg store cache now b.1 b.2 PeriodType.WEEK

/-- Embeds `get_monthly_stats`. -/
def getMonthlyStats (cfg : DataPeriod) (store : Store) (cache : Cache)
    (now : Int) (y m : Int) : Except Unit (StatsResult × Cache) :=
  if y ≠ cfg.target_year then
    .ok (createOutOfRangeResponse cfg (mkDate y m 1).toInstant
      (mkDate y m 28).toInstant, cache)
  else
    let b := calcMonthBounds y m
    calcStatsForPeriod cfg store cache now b.1 b.2 PeriodType.MONTH

/-- Embeds `get_custom_period_stats`; the `{"error": ...}` dict becomes `.err`. -/
def getCustomPeriodStats (cfg : DataPeriod) (store : Store) (cache : Cache)
    (now : Int) (start_date end_date : DateTime) :
    Except Unit (StatsReply × Cache) :=
  if end_date.toInstant < start_date.toInstant then
    .ok (.err "Дата окончания периода должна быть позже даты начала", cache)
  else if start_date.year ≠ cfg.target_year ∨ end_date.year ≠ cfg.target_year
  then
    .ok (.ok (createOutOfRangeResponse cfg start_date.toInstant
      end_date.toInstant), cache)
  else
    let b := customBounds start_date end_date
    match calcStatsForPeriod cfg store cache now b.1 b.2 PeriodType.CUSTOM with
    | .error u => .error u
    | .ok (r, c) => .ok (.ok r, c)

/-- Resolution of the period inside `get_creator_stats` (`ALL_TIME` uses the
configured windows; otherwise `_calculate_period_bounds`, with its
`ValueError` caught into an error dict and `None` mapped to the invalid
parameters message). -/
def resolveCreatorBounds (cfg : DataPeriod) (pt : PeriodType)
    (osd oed : Option DateTime) : Except String (Int × Int) :=
  match pt with
  | PeriodType.ALL_TIME => .ok (cfg.video_creation_start, cfg.stats_end)
  | _ =>
    match calcPeriodBounds osd pt oed with
    | .error msg => .error msg
    | .ok none => .error "Неверные параметры периода"
    | .ok (some b) => .ok b

/-- Embeds `get_creator_stats`: the owner-handle guard runs before any period
resolution or storage access. -/
def getCreatorStats (cfg : DataPeriod) (store : Store) (creator_id : Int)
    (pt : PeriodType) (osd oed : Option DateTime) : Except Unit StatsReply :=
  if ¬ (1 ≤ creator_id ∧ creator_id ≤ 19) then
    .ok (.err "creator_id должен быть от 1 до 19")
  else
    match resolveCreatorBounds cfg pt osd oed with
    | .error msg => .ok (.err msg)
    | .ok b =>
      match fetchCreatorVideosE cfg store creator_id b.1 b.2 with
      | .error u => .error u
      | .ok videos =>
        if videos.isEmpty then .ok (.ok (creatorNoDataResponse creator_id))
        else .ok (.ok (aggregateCreatorStats cfg creator_id videos b.1 b.2 pt))

/-! ### Spec-side definitions (for refinement comparison only)

These follow the specification's words for the per-counter gain:
"`before_end = max(value of snapshots with observation instant < end,
restricted to the counter window)`, defaulting to 0 if no such snapshot
exists; compute `before_start` analogously using `< start`;
`gain = max(before_end - before_start, 0)`". -/

/-- The maximum of a set of values, defaulting to `0` when the set is empty
(spec wording). -/
def specBefore : List Int → Int
  | [] => 0
  | a :: as => as.foldl max a

/-- Spec `before_t` for the views counter of one entity: the maximum views
value among counter-window snapshots of that entity observed strictly
before `t`. -/
def specBeforeViews (cfg : DataPeriod) (store : Store) (vid t : Int) : Int :=
  specBefore (((windowSnaps cfg store vid).filter
    (fun s => decide (s.created_at < t))).map (·.views_count))

/-- Spec `before_t` for the likes counter. -/
def specBeforeLikes (cfg : DataPeriod) (store : Store) (vid t : Int) : Int :=
  specBefore (((windowSnaps cfg store vid).filter
    (fun s => decide (s.created_at < t))).map (·.likes_count))

/-- Spec gain for views: `max(before_end - before_start, 0)`. -/
def specGainViews (cfg : DataPeriod) (store : Store) (vid s e : Int) : Int :=
  max (specBeforeViews cfg store vid e - specBeforeViews cfg store vid s) 0

/-- Spec gain for likes. -/
def specGainLikes (cfg : DataPeriod) (store : Store) (vid s e : Int) : Int :=
  max (specBeforeLikes cfg store vid e - specBeforeLikes cfg store vid s) 0

/-! ### Concrete scenario data -/

/-- The reference configuration, target year 2023. -/
def cfg2023 : DataPeriod := mkDataPeriod 2023

/-- Scenario B request dates. -/
def d20231101 : DateTime := mkDate 2023 11 1

/-- Scenario B request end date. -/
def d20231105 : DateTime := mkDate 2023 11 5

/-- Scenario B entity: created 2023-09-01 (inside the creation window),
owner handle 1. -/
def videoB : Video := ⟨1, 1, (mkDate 2023 9 1).toInstant⟩

/-- Scenario B store: counter-window snapshots `(2023-11-01, views=100)` and
`(2023-11-05, views=150)` for the entity. -/
def storeB : Store :=
  { videos := [videoB]
    snapshots := [⟨1, (mkDate 2023 11 1).toInstant, 100, 0⟩,
                  ⟨1, (mkDate 2023 11 5).toInstant, 150, 0⟩]
    available := true }

/-- An unavailable, empty store (every issued query would raise). -/
def store0 : Store := ⟨[], [], false⟩

/-- The `views_gained` field of the scenario B request
`Custom(2023-11-01, 2023-11-05)` against `storeB` (fresh cache). -/
def scenarioB_views : Option Int :=
  match getCustomPeriodStats cfg2023 storeB [] 0 d20231101 d20231105 with
  | .ok (.ok r, _) => r.views_gained
  | _ => none

/-- The regime (`data_type`) field of a facade result, mapped through the
`Except`/reply layers; `some DataType.MIXED` markers stand for the
paths that cannot occur at the call sites where this is used. -/
def dailyDataTypeField (x : Except Unit (StatsResult × Cache)) :
    Option DataType :=
  match x with
  | .ok (r, _) => r.data_type
  | .error _ => some DataType.MIXED

/-- The `data_type` field of a creator-stats reply (same convention). -/
def creatorDataTypeField (x : Except Unit StatsReply) : Option DataType :=
  match x with
  | .ok (.ok r) => r.data_type
  | _ => some DataType.MIXED

/-- Whether an `Except` result is a success. -/
def isOkE {ε α : Type} : Except ε α → Bool
  | .ok _ => true
  | .error _ => false

/-- A store for the clamp scenario: a later counter-window snapshot reports
a lower value (100 then 90) for entity 1. -/
def storeClamp : Store :=
  { videos := []
    snapshots := [⟨1, (mkDate 2023 11 1).toInstant, 100, 0⟩,
                  ⟨1, (mkDate 2023 11 5).toInstant, 90, 0⟩]
    available := true }

/-! ### Helper lemmas -/

theorem sqlMax_go (as : List Int) : ∀ a : Int,
    as.foldl (fun acc x =>
      match acc with
      | none => some x
      | some a' => some (max a' x)) (some a) = some (as.foldl max a) := by
  induction as with
  | nil => intro a; rfl
  | cons b bs ih => intro a; simpa using ih (max a b)

theorem coalesce_sqlMax (l : List Int) : coalesce (sqlMax l) 0 = specBefore l := by
  cases l with
  | nil => rfl
  | cons a as =>
    show coalesce (as.foldl _ (some a)) 0 = _
    rw [sqlMax_go as a]
    rfl

theorem viewsGainedOf_nonneg (snaps : List Snapshot) (s e : Int) :
    0 ≤ viewsGainedOf snaps s e :=
  le_max_right _ _

theorem likesGainedOf_nonneg (snaps : List Snapshot) (s e : Int) :
    0 ≤ likesGainedOf snaps s e :=
  le_max_right _ _

theorem statsDelta_nonneg (cfg : DataPeriod) (store : Store) (vid s e : Int)
    (vg lg : Int) (h : statsDelta cfg store vid s e = some (vg, lg)) :
    0 ≤ vg ∧ 0 ≤ lg := by
  unfold statsDelta at h
  split at h
  · exact absurd h (by simp)
  · split at h
    · injection h with h'
      have h1 := congrArg Prod.fst h'
      have h2 := congrArg Prod.snd h'
      simp only [] at h1 h2
      exact ⟨h1 ▸ viewsGainedOf_nonneg _ s e, h2 ▸ likesGainedOf_nonneg _ s e⟩
    · exact absurd h (by simp)

theorem rowOfVideo_nonneg (cfg : DataPeriod) (store : Store) (s e : Int)
    (v : Video) (r : Row) (h : rowOfVideo cfg store s e v = some r) :
    0 ≤ r.views_gained ∧ 0 ≤ r.likes_gained := by
  unfold rowOfVideo at h
  rcases hd : statsDelta cfg store v.id s e with _ | ⟨vg, lg⟩
  · rw [hd] at h
    simp only [] at h
    split at h
    · injection h with h'
      subst h'
      exact ⟨le_refl 0, le_refl 0⟩
    · exact absurd h (by simp)
  · rw [hd] at h
    simp only [] at h
    injection h with h'
    subst h'
    exact statsDelta_nonneg cfg store v.id s e vg lg hd

theorem fetch_mem_nonneg (cfg : DataPeriod) (store : Store) (s e : Int)
    (r : Row) (h : r ∈ fetchVideosInPeriod cfg store s e) :
    0 ≤ r.views_gained ∧ 0 ≤ r.likes_gained := by
  unfold fetchVideosInPeriod at h
  rcases List.mem_filterMap.mp h with ⟨v, _, hv⟩
  exact rowOfVideo_nonneg cfg store s e v r hv

theorem statsDeltaCreator_nonneg (cfg : DataPeriod) (store : Store)
    (cid vid s e : Int) (vg lg : Int)
    (h : statsDeltaCreator cfg store cid vid s e = some (vg, lg)) :
    0 ≤ vg ∧ 0 ≤ lg := by
  unfold statsDeltaCreator at h
  split at h
  · exact absurd h (by simp)
  · split at h
    · injection h with h'
      have h1 := congrArg Prod.fst h'
      have h2 := congrArg Prod.snd h'
      simp only [] at h1 h2
      exact ⟨h1 ▸ viewsGainedOf_nonneg _ s e, h2 ▸ likesGainedOf_nonneg _ s e⟩
    · exact absurd h (by simp)

theorem creatorFetch_mem_nonneg (cfg : DataPeriod) (store : Store)
    (cid : Int) (s e : Int) (r : CreatorRow)
    (h : r ∈ fetchCreatorVideosInPeriod cfg store cid s e) :
    0 ≤ r.views_gained ∧ 0 ≤ r.likes_gained := by
  unfold fetchCreatorVideosInPeriod at h
  rcases List.mem_filterMap.mp h with ⟨v, _, hv⟩
  unfold creatorRowOfVideo at hv
  rcases hd : statsDeltaCreator cfg store cid v.id s e with _ | ⟨vg, lg⟩
  · rw [hd] at hv
    simp only [] at hv
    split at hv
    · injection hv with h'
      subst h'
      exact ⟨le_refl 0, le_refl 0⟩
    · exact absurd hv (by simp)
  · rw [hd] at hv
    simp only [] at hv
    injection hv with h'
    subst h'
    exact statsDeltaCreator_nonneg cfg store cid v.id s e vg lg hd

theorem round2_nonneg (q : ℚ) (h : 0 ≤ q) : 0 ≤ round2 q := by
  unfold round2
  apply div_nonneg _ (by norm_num)
  have : (0 : ℤ) ≤ round (q * 100) := by
    rw [round_eq]
    apply Int.floor_nonneg.mpr
    positivity
  exact_mod_cast this

theorem getCached_find_some {α : Type} (ttl : Int)
    (cache : List (CacheEntry α)) (key : CacheKey) (now : Int)
    (en : CacheEntry α)
    (hf : cache.find? (fun e => decide (e.key = key)) = some en) :
    getCached ttl cache key now =
      if now - en.inserted_at < ttl then (some en.value, cache)
      else (none, cache.filter (fun x => ¬ (x.key = key))) := by
  unfold getCached
  rw [hf]

theorem getCached_find_none {α : Type} (ttl : Int)
    (cache : List (CacheEntry α)) (key : CacheKey) (now : Int)
    (hf : cache.find? (fun e => decide (e.key = key)) = none) :
    getCached ttl cache key now = (none, cache) := by
  unfold getCached
  rw [hf]

theorem getCached_fst_some {α : Type} (ttl : Int) (cache : List (CacheEntry α))
    (key : CacheKey) (now : Int) (v : α)
    (h : (getCached ttl cache key now).1 = some v) :
    ∃ en, en ∈ cache ∧ en.key = key ∧ en.value = v ∧ now - en.inserted_at < ttl := by
  rcases hf : cache.find? (fun e => decide (e.key = key)) with _ | en
  · rw [getCached_find_none ttl cache key now hf] at h
    exact absurd h (by simp)
  · rw [getCached_find_some ttl cache key now en hf] at h
    have hmem := List.mem_of_find?_eq_some hf
    have hkey : en.key = key := by
      have := List.find?_some hf
      simpa using this
    by_cases hfresh : now - en.inserted_at < ttl
    · rw [if_pos hfresh] at h
      injection h with h'
      exact ⟨en, hmem, hkey, h', hfresh⟩
    · rw [if_neg hfresh] at h
      exact absurd h (by simp)

theorem viewsBefore_spec (cfg : DataPeriod) (store : Store) (vid t : Int) :
    viewsBefore (windowSnaps cfg store vid) t = specBeforeViews cfg store vid t := by
  unfold viewsBefore specBeforeViews
  exact coalesce_sqlMax _

theorem likesBefore_spec (cfg : DataPeriod) (store : Store) (vid t : Int) :
    likesBefore (windowSnaps cfg store vid) t = specBeforeLikes cfg store vid t := by
  unfold likesBefore specBeforeLikes
  exact coalesce_sqlMax _

/-! ### Claims -/

/-- C1: the per-counter gain of the Delta Aggregator equals
`max(before_end - before_start, 0)` (refinement of the spec's formula by the
SQL's `GREATEST`/`COALESCE`/filtered `MAX`), is never negative — in
particular every per-entity tuple of `_fetch_videos_in_period` carries
non-negative gains — and when a later counter-window snapshot reports a
lower value than an earlier one, the gain over a span separating the two
snapshots is `0`, not a negative number. -/
theorem delta_gain_clamped (cfg : DataPeriod) :
    (∀ (store : Store) (vid s e : Int),
       viewsGainedOf (windowSnaps cfg store vid) s e
         = specGainViews cfg store vid s e ∧
       likesGainedOf (windowSnaps cfg store vid) s e
         = specGainLikes cfg store vid s e) ∧
    (∀ (snaps : List Snapshot) (s e : Int),
       0 ≤ viewsGainedOf snaps s e ∧ 0 ≤ likesGainedOf snaps s e) ∧
    (∀ (store : Store) (s e : Int) (r : Row),
       r ∈ fetchVideosInPeriod cfg store s e →
       0 ≤ r.views_gained ∧ 0 ≤ r.likes_gained) ∧
    (∀ (st : Store) (vid t1 t2 v1 v2 la lb s e : Int),
       st.snapshots = [⟨vid, t1, v1, la⟩, ⟨vid, t2, v2, lb⟩] →
       cfg.stats_start ≤ t1 → t2 ≤ cfg.stats_end →
       t1 < s → s ≤ t2 → t2 < e → v2 < v1 →
       viewsGainedOf (windowSnaps cfg st vid) s e = 0) := by
  refine ⟨?_, ?_, ?_, ?_⟩
  · intro store vid s e
    constructor
    · unfold viewsGainedOf specGainViews
      rw [viewsBefore_spec, viewsBefore_spec]
    · unfold likesGainedOf specGainLikes
      rw [likesBefore_spec, likesBefore_spec]
  · intro snaps s e
    exact ⟨viewsGainedOf_nonneg snaps s e, likesGainedOf_nonneg snaps s e⟩
  · intro store s e r hr
    exact fetch_mem_nonneg cfg store s e r hr
  · intro st vid t1 t2 v1 v2 la lb s e hsnap h1 h2 h3 h4 h5 h6
    have ht12 : t1 ≤ t2 := le_trans (le_of_lt h3) h4
    have ht1se : t1 ≤ cfg.stats_end := le_trans ht12 h2
    have ht2ss : cfg.stats_start ≤ t2 := le_trans h1 ht12
    have hw : windowSnaps cfg st vid
        = [⟨vid, t1, v1, la⟩, ⟨vid, t2, v2, lb⟩] := by
      unfold windowSnaps
      rw [hsnap]
      simp [h1, h2, ht1se, ht2ss]
    rw [hw]
    have he1 : t1 < e := lt_of_lt_of_le h3 (le_trans h4 (le_of_lt h5))
    have hns : ¬ (t2 < s) := not_lt.mpr h4
    unfold viewsGainedOf viewsBefore
    simp only [List.filter_cons, List.filter_nil, decide_eq_true_eq]
    rw [if_pos he1, if_pos h5, if_pos h3, if_neg hns]
    simp [sqlMax, coalesce, max_eq_left (le_of_lt h6)]

/-- Witness for C1's clamp conjunct: snapshots `(2023-11-01, 100)` then
`(2023-11-05, 90)`, span `[2023-11-03, 2023-11-07)` — the gain is 0. -/
theorem delta_gain_clamped_witness :
    viewsGainedOf (windowSnaps cfg2023 storeClamp 1)
      (mkDate 2023 11 3).toInstant (mkDate 2023 11 7).toInstant = 0 :=
  (delta_gain_clamped cfg2023).2.2.2 storeClamp 1
    (mkDate 2023 11 1).toInstant (mkDate 2023 11 5).toInstant 100 90 0 0
    (mkDate 2023 11 3).toInstant (mkDate 2023 11 7).toInstant
    rfl (by decide) (by decide) (by decide) (by decide) (by decide) (by decide)

/-- C2: the Availability Classifier is total and deterministic over the four
regimes, returns `NONE` exactly when `end <= creationStart` or
`start >= counterEnd`, and whenever it returns `NONE` the aggregation
returns a `has_data = false` result (stated under a cache miss; the cache
only ever holds results the engine itself produced). -/
theorem classifier_total_none (cfg : DataPeriod) (s e : Int) :
    (getPeriodType cfg s e = DataType.NONE ∨
     getPeriodType cfg s e = DataType.VIDEO_CREATION ∨
     getPeriodType cfg s e = DataType.STATS_ONLY ∨
     getPeriodType cfg s e = DataType.MIXED) ∧
    (getPeriodType cfg s e = DataType.NONE ↔
      e ≤ cfg.video_creation_start ∨ cfg.stats_end ≤ s) ∧
    (∀ (store : Store) (cache : Cache) (now : Int) (pt : PeriodType),
       (getCached CACHE_TTL cache ⟨pt, s, e⟩ now).1 = none →
       getPeriodType cfg s e = DataType.NONE →
       ∃ c', calcStatsForPeriod cfg store cache now s e pt
           = .ok (createNoDataResponse cfg s e pt DataType.NONE, c') ∧
         (createNoDataResponse cfg s e pt DataType.NONE).has_data = false) := by
  refine ⟨?_, ?_, ?_⟩
  · cases h : getPeriodType cfg s e <;> simp
  · unfold getPeriodType
    split_ifs <;> simp_all
  · intro store cache now pt hmiss hnone
    refine ⟨setCached MAX_CACHE_SIZE CACHE_TTL
      ((getCached CACHE_TTL cache ⟨pt, s, e⟩ now).2) ⟨pt, s, e⟩
      (createNoDataResponse cfg s e pt DataType.NONE) now, ?_, rfl⟩
    unfold calcStatsForPeriod
    simp only [hmiss, hnone]
    simp

/-- Witness for C2: a January 2023 period (outside both windows) classifies
as `NONE` and aggregates, under a fresh cache, to a `has_data = false`
no-data response. -/
theorem classifier_total_none_witness :
    ∃ c', calcStatsForPeriod cfg2023 storeB [] 0 (mkDate 2023 1 1).toInstant
        (mkDate 2023 2 1).toInstant PeriodType.CUSTOM
      = .ok (createNoDataResponse cfg2023 (mkDate 2023 1 1).toInstant
          (mkDate 2023 2 1).toInstant PeriodType.CUSTOM DataType.NONE, c') ∧
      (createNoDataResponse cfg2023 (mkDate 2023 1 1).toInstant
          (mkDate 2023 2 1).toInstant PeriodType.CUSTOM DataType.NONE).has_data
        = false :=
  (classifier_total_none cfg2023 (mkDate 2023 1 1).toInstant
    (mkDate 2023 2 1).toInstant).2.2 storeB [] 0 PeriodType.CUSTOM rfl
    (by decide)

/-- C3 counterexample: for the scenario-B store (snapshots
`(2023-11-01, views=100)` and `(2023-11-05, views=150)`), the request
`Custom(2023-11-01, 2023-11-05)` does NOT yield `views_gained = 50`: the
resolved start `2023-11-01 00:00` is not strictly after the first snapshot,
so `before_start = 0` and the gain is `150`. -/
theorem scenarioB_not_50 : scenarioB_views ≠ some 50 ∧ scenarioB_views = some 150 := by
  constructor
  · decide
  · decide

/-- C3 amended: the scenario-B request yields `views_gained = 150`, which is
exactly `max(before_end - before_start, 0)` with `before_end = 150` (both
snapshots observed before the exclusive end `2023-11-06 00:00`) and
`before_start = 0` (no counter-window snapshot strictly before
`2023-11-01 00:00`). -/
theorem scenarioB_views_150 :
    scenarioB_views = some (specGainViews cfg2023 storeB 1
      (customBounds d20231101 d20231105).1 (customBounds d20231101 d20231105).2) ∧
    scenarioB_views = some 150 ∧
    specBeforeViews cfg2023 storeB 1 (customBounds d20231101 d20231105).2 = 150 ∧
    specBeforeViews cfg2023 storeB 1 (customBounds d20231101 d20231105).1 = 0 := by
  refine ⟨?_, ?_, ?_, ?_⟩ <;> decide

/-- Sum of the views gains of a fetched row set. -/
theorem totalViews_fetch_nonneg (cfg : DataPeriod) (store : Store) (s e : Int) :
    0 ≤ totalViews (fetchVideosInPeriod cfg store s e) := by
  apply List.sum_nonneg
  intro x hx
  rcases List.mem_map.mp hx with ⟨r, hr, rfl⟩
  exact (fetch_mem_nonneg cfg store s e r hr).1

theorem totalLikes_fetch_nonneg (cfg : DataPeriod) (store : Store) (s e : Int) :
    0 ≤ totalLikes (fetchVideosInPeriod cfg store s e) := by
  apply List.sum_nonneg
  intro x hx
  rcases List.mem_map.mp hx with ⟨r, hr, rfl⟩
  exact (fetch_mem_nonneg cfg store s e r hr).2

theorem creatorTotalViews_fetch_nonneg (cfg : DataPeriod) (store : Store)
    (cid s e : Int) :
    0 ≤ creatorTotalViews (fetchCreatorVideosInPeriod cfg store cid s e) := by
  apply List.sum_nonneg
  intro x hx
  rcases List.mem_map.mp hx with ⟨r, hr, rfl⟩
  exact (creatorFetch_mem_nonneg cfg store cid s e r hr).1

theorem creatorTotalLikes_fetch_nonneg (cfg : DataPeriod) (store : Store)
    (cid s e : Int) :
    0 ≤ creatorTotalLikes (fetchCreatorVideosInPeriod cfg store cid s e) := by
  apply List.sum_nonneg
  intro x hx
  rcases List.mem_map.mp hx with ⟨r, hr, rfl⟩
  exact (creatorFetch_mem_nonneg cfg store cid s e r hr).2

theorem round2_zero : round2 0 = 0 := by
  unfold round2
  simp

theorem round2_if (c : Prop) [Decidable c] (x : ℚ) :
    round2 (if c then x else 0) = if c then round2 x else 0 := by
  split_ifs
  · rfl
  · exact round2_zero

theorem aggregateVideoStats_engagement (cfg : DataPeriod) (rows : List Row)
    (s e : Int) (pt : PeriodType) (dt : DataType) :
    (aggregateVideoStats cfg rows s e pt dt).engagement_rate
      = some (round2 (if 0 < totalViews rows
          then (totalLikes rows : ℚ) / (totalViews rows : ℚ) * 100 else 0)) :=
  rfl

theorem aggregateCreatorStats_engagement (cfg : DataPeriod) (cid : Int)
    (rows : List CreatorRow) (s e : Int) (pt : PeriodType) :
    (aggregateCreatorStats cfg cid rows s e pt).engagement_rate
      = some (if 0 < creatorTotalViews rows
          then round2 ((creatorTotalLikes rows : ℚ) / (creatorTotalViews rows : ℚ) * 100)
          else 0) :=
  rfl

/-- C4: for every aggregation result produced over fetched rows (both
`_aggregate_video_stats` and `_aggregate_creator_stats`), the engagement
rate is `likes_gained / views_gained * 100` rounded to 2 decimal places
when `views_gained > 0` and `0` when `views_gained = 0` (the guard makes a
division-by-zero fault impossible), and it is always non-negative. -/
theorem engagement_rate_def_nonneg (cfg : DataPeriod) (store : Store)
    (s e : Int) (pt : PeriodType) (dt : DataType) (cid : Int) :
    (aggregateVideoStats cfg (fetchVideosInPeriod cfg store s e) s e pt
        dt).engagement_rate
      = some (if 0 < totalViews (fetchVideosInPeriod cfg store s e)
          then round2 ((totalLikes (fetchVideosInPeriod cfg store s e) : ℚ)
            / (totalViews (fetchVideosInPeriod cfg store s e) : ℚ) * 100)
          else 0) ∧
    0 ≤ ((aggregateVideoStats cfg (fetchVideosInPeriod cfg store s e) s e pt
        dt).engagement_rate).getD 0 ∧
    (aggregateCreatorStats cfg cid
        (fetchCreatorVideosInPeriod cfg store cid s e) s e pt).engagement_rate
      = some (if 0 < creatorTotalViews (fetchCreatorVideosInPeriod cfg store cid s e)
          then round2 ((creatorTotalLikes (fetchCreatorVideosInPeriod cfg store cid s e) : ℚ)
            / (creatorTotalViews (fetchCreatorVideosInPeriod cfg store cid s e) : ℚ) * 100)
          else 0) ∧
    0 ≤ ((aggregateCreatorStats cfg cid
        (fetchCreatorVideosInPeriod cfg store cid s e) s e
        pt).engagement_rate).getD 0 := by
  have hv := totalViews_fetch_nonneg cfg store s e
  have hl := totalLikes_fetch_nonneg cfg store s e
  have hcv := creatorTotalViews_fetch_nonneg cfg store cid s e
  have hcl := creatorTotalLikes_fetch_nonneg cfg store cid s e
  refine ⟨?_, ?_, aggregateCreatorStats_engagement cfg cid _ s e pt, ?_⟩
  · rw [aggregateVideoStats_engagement, round2_if]
  · rw [aggregateVideoStats_engagement]
    simp only [Option.getD_some]
    apply round2_nonneg
    split_ifs with h
    · have h1 : (0 : ℚ) ≤ (totalLikes (fetchVideosInPeriod cfg store s e) : ℚ) := by
        exact_mod_cast hl
      have h2 : (0 : ℚ) ≤ (totalViews (fetchVideosInPeriod cfg store s e) : ℚ) := by
        exact_mod_cast hv
      have h3 := div_nonneg h1 h2
      positivity
    · exact le_refl 0
  · rw [aggregateCreatorStats_engagement]
    simp only [Option.getD_some]
    split_ifs with h
    · apply round2_nonneg
      have h1 : (0 : ℚ) ≤ (creatorTotalLikes (fetchCreatorVideosInPeriod cfg store cid s e) : ℚ) := by
        exact_mod_cast hcl
      have h2 : (0 : ℚ) ≤ (creatorTotalViews (fetchCreatorVideosInPeriod cfg store cid s e) : ℚ) := by
        exact_mod_cast hcv
      have h3 := div_nonneg h1 h2
      positivity
    · exact le_refl 0

/-- C5: an entity whose computed gain is `0` for every tracked counter and
which is not new in the period contributes no tuple: the fetched tuple set
equals the one obtained after deleting the entity from the store, so the
entity cannot contribute to totals, active-creator counts, or the
leaderboard of the aggregated result. -/
theorem zero_gain_entity_dropped (cfg : DataPeriod) (s e : Int)
    (pre post : List Video) (v : Video) (snaps : List Snapshot)
    (avail : Bool) (pt : PeriodType) (dt : DataType) :
    viewsGainedOf (windowSnaps cfg ⟨pre ++ v :: post, snaps, avail⟩ v.id) s e = 0 →
    likesGainedOf (windowSnaps cfg ⟨pre ++ v :: post, snaps, avail⟩ v.id) s e = 0 →
    ¬ (s ≤ v.video_created_at ∧ v.video_created_at < e) →
    fetchVideosInPeriod cfg ⟨pre ++ v :: post, snaps, avail⟩ s e
      = fetchVideosInPeriod cfg ⟨pre ++ post, snaps, avail⟩ s e ∧
    aggregateVideoStats cfg
        (fetchVideosInPeriod cfg ⟨pre ++ v :: post, snaps, avail⟩ s e) s e pt dt
      = aggregateVideoStats cfg
        (fetchVideosInPeriod cfg ⟨pre ++ post, snaps, avail⟩ s e) s e pt dt := by
  intro hvg hlg hnew
  have hin : isNewFlag v s e = 0 := by
    unfold isNewFlag
    rw [if_neg hnew]
  have hrow : rowOfVideo cfg ⟨pre ++ v :: post, snaps, avail⟩ s e v = none := by
    unfold rowOfVideo
    rcases hd : statsDelta cfg ⟨pre ++ v :: post, snaps, avail⟩ v.id s e
      with _ | ⟨vg, lg⟩
    · simp [hin]
    · exfalso
      unfold statsDelta at hd
      split at hd
      · exact absurd hd (by simp)
      · split at hd
        · rename_i hpos
          rw [hvg, hlg] at hpos
          rcases hpos with h | h <;> exact absurd h (by norm_num)
        · exact absurd hd (by simp)
  have hfun : rowOfVideo cfg ⟨pre ++ v :: post, snaps, avail⟩ s e
      = rowOfVideo cfg ⟨pre ++ post, snaps, avail⟩ s e := rfl
  have hrow2 : rowOfVideo cfg ⟨pre ++ post, snaps, avail⟩ s e v = none :=
    hfun ▸ hrow
  have hfetch : fetchVideosInPeriod cfg ⟨pre ++ v :: post, snaps, avail⟩ s e
      = fetchVideosInPeriod cfg ⟨pre ++ post, snaps, avail⟩ s e := by
    unfold fetchVideosInPeriod
    rw [hfun]
    show ((pre ++ v :: post).filter _).filterMap _
      = ((pre ++ post).filter _).filterMap _
    rw [List.filter_append, List.filter_append, List.filterMap_append,
      List.filterMap_append]
    congr 1
    by_cases hcw : inCreationWindow cfg v = true
    · rw [List.filter_cons_of_pos hcw, List.filterMap_cons, hrow2]
    · rw [List.filter_cons_of_neg hcw]
  exact ⟨hfetch, by rw [hfetch]⟩

/-- Witness for C5: a video with no snapshots and a creation instant outside
the requested period contributes nothing against a store that omits it. -/
theorem zero_gain_entity_dropped_witness :
    fetchVideosInPeriod cfg2023
        ⟨[] ++ ⟨2, 3, (mkDate 2023 9 15).toInstant⟩ :: [], [], true⟩
        (mkDate 2023 11 1).toInstant (mkDate 2023 11 6).toInstant
      = fetchVideosInPeriod cfg2023 ⟨[] ++ [], [], true⟩
        (mkDate 2023 11 1).toInstant (mkDate 2023 11 6).toInstant :=
  (zero_gain_entity_dropped cfg2023 (mkDate 2023 11 1).toInstant
    (mkDate 2023 11 6).toInstant [] [] ⟨2, 3, (mkDate 2023 9 15).toInstant⟩
    [] true PeriodType.CUSTOM DataType.STATS_ONLY
    (by decide) (by decide) (by decide)).1

/-- C6: under a cache miss, an empty per-entity tuple set yields a normal
(non-error) `has_data = false` no-data result (with descriptive metadata),
while a storage failure on a period that needs data yields a raised error —
the two outcomes are distinguishable. -/
theorem empty_tuple_set_no_data (cfg : DataPeriod) (store : Store)
    (cache : Cache) (now s e : Int) (pt : PeriodType) :
    (getCached CACHE_TTL cache ⟨pt, s, e⟩ now).1 = none →
    ((store.available = true → fetchVideosInPeriod cfg store s e = [] →
        ∃ c', calcStatsForPeriod cfg store cache now s e pt
            = .ok (createNoDataResponse cfg s e pt (getPeriodType cfg s e), c')
          ∧ (createNoDataResponse cfg s e pt
              (getPeriodType cfg s e)).has_data = false) ∧
     (store.available = false → getPeriodType cfg s e ≠ DataType.NONE →
        calcStatsForPeriod cfg store cache now s e pt = .error ())) := by
  intro hmiss
  constructor
  · intro hav hempty
    refine ⟨setCached MAX_CACHE_SIZE CACHE_TTL
      ((getCached CACHE_TTL cache ⟨pt, s, e⟩ now).2) ⟨pt, s, e⟩
      (createNoDataResponse cfg s e pt (getPeriodType cfg s e)) now, ?_, rfl⟩
    unfold calcStatsForPeriod
    simp only [hmiss]
    by_cases hdt : getPeriodType cfg s e = DataType.NONE
    · simp [hdt]
    · simp [hdt, fetchVideosE, hav, hempty]
  · intro hunav hdt
    unfold calcStatsForPeriod
    simp only [hmiss]
    simp [hdt, fetchVideosE, hunav]

/-- Witness for C6: an available store with no videos produces, for a
November 2023 period and a fresh cache, a non-error no-data result. -/
theorem empty_tuple_set_no_data_witness :
    ∃ c', calcStatsForPeriod cfg2023 ⟨[], [], true⟩ [] 0
        (mkDate 2023 11 1).toInstant (mkDate 2023 11 6).toInstant
        PeriodType.CUSTOM
      = .ok (createNoDataResponse cfg2023 (mkDate 2023 11 1).toInstant
          (mkDate 2023 11 6).toInstant PeriodType.CUSTOM
          (getPeriodType cfg2023 (mkDate 2023 11 1).toInstant
            (mkDate 2023 11 6).toInstant), c')
      ∧ (createNoDataResponse cfg2023 (mkDate 2023 11 1).toInstant
          (mkDate 2023 11 6).toInstant PeriodType.CUSTOM
          (getPeriodType cfg2023 (mkDate 2023 11 1).toInstant
            (mkDate 2023 11 6).toInstant)).has_data = false :=
  (empty_tuple_set_no_data cfg2023 ⟨[], [], true⟩ [] 0
    (mkDate 2023 11 1).toInstant (mkDate 2023 11 6).toInstant
    PeriodType.CUSTOM rfl).1 rfl rfl

/-- C7: a cache read returns the stored value iff the entry is present and
younger than the TTL (an entry at or beyond the TTL is never returned);
a write purges all expired entries, then evicts the single entry with the
oldest insertion instant when still at/over capacity, then inserts; with
capacity 2 and three distinct keys inserted in sequence the first key is
evicted and the two most recent remain retrievable. -/
theorem cache_semantics :
    (∀ (ttl : Int) (c : List (CacheEntry Nat)) (k : CacheKey) (n : Int)
       (en : CacheEntry Nat),
       c.find? (fun x => decide (x.key = k)) = some en →
       (getCached ttl c k n).1
         = if n - en.inserted_at < ttl then some en.value else none) ∧
    (∀ (ttl : Int) (c : List (CacheEntry Nat)) (k : CacheKey) (n : Int)
       (v : Nat),
       (getCached ttl c k n).1 = some v →
       ∃ en, en ∈ c ∧ en.key = k ∧ en.value = v ∧ n - en.inserted_at < ttl) ∧
    (∀ (maxSize : Nat) (ttl : Int) (c : List (CacheEntry Nat)) (k : CacheKey)
       (v : Nat) (n : Int),
       setCached maxSize ttl c k v n
         = dictInsert (evictIfFull maxSize (purgeExpired ttl c n)) k v n) ∧
    (∀ (ttl n : Int) (c : List (CacheEntry Nat)),
       purgeExpired ttl c n
         = c.filter (fun e => decide (n - e.inserted_at < ttl))) ∧
    ((getCached 300 (setCached 2 300 (setCached 2 300 (setCached 2 300
        ([] : List (CacheEntry Nat)) ⟨PeriodType.DAY, 0, 1⟩ 11 0)
        ⟨PeriodType.WEEK, 0, 1⟩ 12 1) ⟨PeriodType.MONTH, 0, 1⟩ 13 2)
        ⟨PeriodType.DAY, 0, 1⟩ 3).1 = none ∧
     (getCached 300 (setCached 2 300 (setCached 2 300 (setCached 2 300
        ([] : List (CacheEntry Nat)) ⟨PeriodType.DAY, 0, 1⟩ 11 0)
        ⟨PeriodType.WEEK, 0, 1⟩ 12 1) ⟨PeriodType.MONTH, 0, 1⟩ 13 2)
        ⟨PeriodType.WEEK, 0, 1⟩ 3).1 = some 12 ∧
     (getCached 300 (setCached 2 300 (setCached 2 300 (setCached 2 300
        ([] : List (CacheEntry Nat)) ⟨PeriodType.DAY, 0, 1⟩ 11 0)
        ⟨PeriodType.WEEK, 0, 1⟩ 12 1) ⟨PeriodType.MONTH, 0, 1⟩ 13 2)
        ⟨PeriodType.MONTH, 0, 1⟩ 3).1 = some 13) := by
  refine ⟨?_, ?_, ?_, ?_, ?_⟩
  · intro ttl c k n en hf
    rw [getCached_find_some ttl c k n en hf]
    split_ifs <;> rfl
  · intro ttl c k n v h
    exact getCached_fst_some ttl c k n v h
  · intro maxSize ttl c k v n
    rfl
  · intro ttl n c
    rfl
  · refine ⟨?_, ?_, ?_⟩ <;> decide

/-- Witness for C7: a fresh singleton entry is returned on read. -/
theorem cache_semantics_witness :
    (getCached 300 [⟨⟨PeriodType.DAY, 0, 1⟩, 7, 0⟩]
      ⟨PeriodType.DAY, 0, 1⟩ 10).1 = some 7 := by
  have h := cache_semantics.1 300 [⟨⟨PeriodType.DAY, 0, 1⟩, 7, 0⟩]
    ⟨PeriodType.DAY, 0, 1⟩ 10 ⟨⟨PeriodType.DAY, 0, 1⟩, 7, 0⟩ (by decide)
  rw [if_pos (by norm_num)] at h
  exact h

/-- C8: for every owner handle outside 1..19 and any period request,
`get_creator_stats` fails with the invalid-owner error, and the result is
the same for every store (in particular for an unavailable one, so no
storage query is issued). -/
theorem invalid_owner_rejected (creator_id : Int) (pt : PeriodType)
    (osd oed : Option DateTime) :
    ¬ (1 ≤ creator_id ∧ creator_id ≤ 19) →
    ∀ (cfg : DataPeriod) (store : Store),
      getCreatorStats cfg store creator_id pt osd oed
        = .ok (.err "creator_id должен быть от 1 до 19") := by
  intro h cfg store
  unfold getCreatorStats
  rw [if_pos h]

/-- Witness for C8: `GetEntityOwnerStats(20, AllTime)` fails with the
invalid-owner error even against an unavailable store. -/
theorem invalid_owner_rejected_witness :
    getCreatorStats cfg2023 store0 20 PeriodType.ALL_TIME none none
      = .ok (.err "creator_id должен быть от 1 до 19") :=
  invalid_owner_rejected 20 PeriodType.ALL_TIME none none (by decide)
    cfg2023 store0

/-- C9 counterexample: two non-error results lack the availability-regime
field: the out-of-range daily response (`has_data = false`) and the
owner-stats aggregation result (`has_data = true`) are built without a
`data_type` key (the projection helpers map error outcomes to a dummy
`some` value, so `none` here certifies a non-error result without the
field). -/
theorem regime_field_missing :
    dailyDataTypeField (getDailyStats cfg2023 store0 [] 0 (mkDate 2022 5 1))
      = none ∧
    creatorDataTypeField (getCreatorStats cfg2023 storeB 1
      PeriodType.ALL_TIME none none) = none := by
  constructor
  · decide
  · decide

/-- C9 amended: every result produced by `_calculate_stats_for_period` (the
aggregation path reached by in-target-year day/week/month/custom requests)
carries the availability regime as a field, including `has_data = false`
results, provided every cached entry carries it (the cache only ever
stores such results); the out-of-range responses and both owner-stats
dicts (the aggregated result and the no-data dict) do not carry it. -/
theorem regime_field_in_period_results (cfg : DataPeriod) (store : Store)
    (cache : Cache) (now s e : Int) (pt : PeriodType) :
    (∀ en, en ∈ cache → en.value.data_type ≠ none) →
    (∀ r c', calcStatsForPeriod cfg store cache now s e pt = .ok (r, c') →
       r.data_type ≠ none) ∧
    (∀ a b, (createOutOfRangeResponse cfg a b).data_type = none) ∧
    (∀ (cid : Int) (rows : List CreatorRow) (a b : Int) (pt2 : PeriodType),
       (aggregateCreatorStats cfg cid rows a b pt2).data_type = none) ∧
    (∀ cid : Int, (creatorNoDataResponse cid).data_type = none) := by
  intro hinv
  refine ⟨?_, fun a b => rfl, fun cid rows a b pt2 => rfl, fun cid => rfl⟩
  intro r c' hcalc
  unfold calcStatsForPeriod at hcalc
  rcases hread : (getCached CACHE_TTL cache ⟨pt, s, e⟩ now).1 with _ | v
  · simp only [hread] at hcalc
    split at hcalc
    · rw [Except.ok.injEq, Prod.mk.injEq] at hcalc
      rw [← hcalc.1]
      simp [createNoDataResponse]
    · rcases hfe : fetchVideosE cfg store s e with u | videos
      · simp only [hfe] at hcalc
        exact absurd hcalc (by simp)
      · simp only [hfe] at hcalc
        split at hcalc
        · rw [Except.ok.injEq, Prod.mk.injEq] at hcalc
          rw [← hcalc.1]
          simp [createNoDataResponse]
        · rw [Except.ok.injEq, Prod.mk.injEq] at hcalc
          rw [← hcalc.1]
          simp [aggregateVideoStats]
  · simp only [hread] at hcalc
    rw [Except.ok.injEq, Prod.mk.injEq] at hcalc
    rcases getCached_fst_some CACHE_TTL cache ⟨pt, s, e⟩ now v hread
      with ⟨en, hmem, _, hval, _⟩
    rw [← hcalc.1, ← hval]
    exact hinv en hmem

/-- Witness for C9's amended statement: the scenario-B aggregation result
carries the regime field. -/
theorem regime_field_witness :
    ∃ r c', calcStatsForPeriod cfg2023 storeB [] 0
        (customBounds d20231101 d20231105).1
        (customBounds d20231101 d20231105).2 PeriodType.CUSTOM
      = .ok (r, c') ∧ r.data_type ≠ none := by
  have hok : isOkE (calcStatsForPeriod cfg2023 storeB [] 0
      (customBounds d20231101 d20231105).1
      (customBounds d20231101 d20231105).2 PeriodType.CUSTOM) = true := by
    decide
  rcases hc : calcStatsForPeriod cfg2023 storeB [] 0
      (customBounds d20231101 d20231105).1
      (customBounds d20231101 d20231105).2 PeriodType.CUSTOM with u | p
  · rw [hc] at hok
    exact absurd hok (by simp [isOkE])
  · refine ⟨p.1, p.2, ?_, ?_⟩
    · rfl
    · exact (regime_field_in_period_results cfg2023 storeB [] 0
        (customBounds d20231101 d20231105).1
        (customBounds d20231101 d20231105).2 PeriodType.CUSTOM
        (by intro en hen; exact absurd hen (List.not_mem_nil en))).1
        p.1 p.2 (by rw [hc])

/-- C10: a daily/weekly/monthly/custom request whose date lies outside the
target year (for custom: either endpoint, checked only after the
end-before-start validation) returns the `out_of_range` `has_data = false`
response built solely from the requested dates and the target year; the
equations hold for every store and every cache and return the cache
unchanged, so no bounds are resolved, no regime is classified, no storage
query is issued, and the cache is neither read nor written. -/
theorem out_of_range_short_circuit (cfg : DataPeriod) (store : Store)
    (cache : Cache) (now : Int) :
    (∀ d : DateTime, d.year ≠ cfg.target_year →
       getDailyStats cfg store cache now d
         = .ok (createOutOfRangeResponse cfg d.toInstant d.toInstant, cache)) ∧
    (∀ d : DateTime, d.year ≠ cfg.target_year →
       getWeeklyStats cfg store cache now d
         = .ok (createOutOfRangeResponse cfg d.toInstant d.toInstant, cache)) ∧
    (∀ y m : Int, y ≠ cfg.target_year →
       getMonthlyStats cfg store cache now y m
         = .ok (createOutOfRangeResponse cfg (mkDate y m 1).toInstant
             (mkDate y m 28).toInstant, cache)) ∧
    (∀ sd ed : DateTime, ed.toInstant < sd.toInstant →
       getCustomPeriodStats cfg store cache now sd ed
         = .ok (.err "Дата окончания периода должна быть позже даты начала",
             cache)) ∧
    (∀ sd ed : DateTime, ¬ ed.toInstant < sd.toInstant →
       (sd.year ≠ cfg.target_year ∨ ed.year ≠ cfg.target_year) →
       getCustomPeriodStats cfg store cache now sd ed
         = .ok (.ok (createOutOfRangeResponse cfg sd.toInstant ed.toInstant),
             cache)) ∧
    (∀ a b : Int, (createOutOfRangeResponse cfg a b).has_data = false ∧
       (createOutOfRangeResponse cfg a b).period_type = some "out_of_range" ∧
       (createOutOfRangeResponse cfg a b).data_type = none) ∧
    (∀ (cfg2 : DataPeriod) (a b : Int),
       cfg.target_year = cfg2.target_year →
       createOutOfRangeResponse cfg a b = createOutOfRangeResponse cfg2 a b) := by
  refine ⟨?_, ?_, ?_, ?_, ?_, ?_, ?_⟩
  · intro d h
    unfold getDailyStats
    rw [if_pos h]
  · intro d h
    unfold getWeeklyStats
    rw [if_pos h]
  · intro y m h
    unfold getMonthlyStats
    rw [if_pos h]
  · intro sd ed h
    unfold getCustomPeriodStats
    rw [if_pos h]
  · intro sd ed h1 h2
    unfold getCustomPeriodStats
    rw [if_neg h1, if_pos h2]
  · intro a b
    exact ⟨rfl, rfl, rfl⟩
  · intro cfg2 a b h
    unfold createOutOfRangeResponse
    rw [h]

/-- Witness for C10: a 2022 date against the 2023 configuration yields the
out-of-range response and leaves the (empty) cache untouched, even against
an unavailable store. -/
theorem out_of_range_short_circuit_witness :
    getDailyStats cfg2023 store0 [] 0 (mkDate 2022 5 1)
      = .ok (createOutOfRangeResponse cfg2023 (mkDate 2022 5 1).toInstant
          (mkDate 2022 5 1).toInstant, []) :=
  (out_of_range_short_circuit cfg2023 store0 [] 0).1 (mkDate 2022 5 1)
    (by decide)

end VideoAnalytics
